import Mathlib

/-!
Verification of the medtrack-analytics data pipeline core
(`app/pipeline/data_pipeline.py` and `app/pipeline/data_quality.py`)
as a shallow embedding.

Conventions of the embedding:
* calendar dates and timestamps are abstract integer day numbers;
* pandas / SQL floats are modelled as rationals;
* SQL NULL is `Option.none`; an SQL comparison involving NULL is false
  (rows with NULL in a compared column are not selected), which matches
  the three-valued logic the queries rely on;
* Python exceptions are `Except.error` with a message resembling the
  Python exception.
-/

namespace Medtrack

/-- Banker rounding helper: floor of a rational, computable. -/
def qfloor (x : ℚ) : Int := x.num / (x.den : Int)

/-- Python `round` on a rational: round half to even. -/
def roundHalfEven (x : ℚ) : Int :=
  let f := qfloor x
  let r := x - (f : ℚ)
  if r < 1/2 then f
  else if 1/2 < r then f + 1
  else if f % 2 = 0 then f else f + 1

/-- Python `round(x, 2)` on a rational. -/
def round2 (x : ℚ) : ℚ := ((roundHalfEven (x * 100) : Int) : ℚ) / 100

/-- Truncation toward zero, as numpy `astype(int)` applies to a float. -/
def qtrunc (q : ℚ) : Int := if q < 0 then -qfloor (-q) else qfloor q

/-! ## Canonical store (the database tables the Data Quality Monitor audits) -/

/-- A row of the `drugs` table; columns used by the quality monitor. -/
structure DrugRow where
  id : Nat
  drug_code : Option String
  drug_name : Option String
  manufacturer : Option String
  unit_price : Option ℚ
  stock_quantity : Option Int
  expiry_date : Option Int
deriving DecidableEq, Repr

/-- A row of the `sales` table; columns used by the quality monitor. -/
structure SaleRow where
  id : Nat
  transaction_id : Option String
  drug_id : Option Nat
  sale_date : Option Int
  quantity : Option Int
  unit_price : Option ℚ
  discount : Option ℚ
  total_amount : Option ℚ
deriving DecidableEq, Repr

/-- A row of the `patients` table; columns used by the quality monitor. -/
structure PatientRow where
  id : Nat
  first_name : Option String
  last_name : Option String
  date_of_birth : Option Int
  age : Option Int
  created_at : Option Int
deriving DecidableEq, Repr

/-- The canonical store: the three audited tables. -/
structure Store where
  drugs : List DrugRow
  sales : List SaleRow
  patients : List PatientRow
deriving DecidableEq, Repr

/-! ## DataQualityMonitor.check_completeness -/

/-- The completeness sub-report returned by `check_completeness`. -/
structure CompletenessReport where
  table : String
  total_records : Nat
  complete_records : Nat
  completeness_rate : ℚ
deriving DecidableEq, Repr

/-- The filter chain of `check_completeness` for the drugs table. -/
def drugCompleteRow (d : DrugRow) : Bool :=
  d.drug_code.isSome && d.drug_name.isSome && d.manufacturer.isSome &&
    d.unit_price.isSome

/-- The filter chain of `check_completeness` for the sales table: the
source checks `total_amount`, not `quantity`. -/
def saleCompleteRow (x : SaleRow) : Bool :=
  x.transaction_id.isSome && x.drug_id.isSome && x.sale_date.isSome &&
    x.total_amount.isSome

/-- The filter chain of `check_completeness` for the patients table. -/
def patientCompleteRow (p : PatientRow) : Bool :=
  p.first_name.isSome && p.last_name.isSome && p.date_of_birth.isSome

/-- Build the completeness report from the two counts, as the source does:
`(complete / total * 100) if total > 0 else 0`, then `round(rate, 2)`. -/
def mkCompletenessReport (t : String) (total complete : Nat) : CompletenessReport :=
  let rate : ℚ := if 0 < total then (complete : ℚ) / (total : ℚ) * 100 else 0
  { table := t, total_records := total, complete_records := complete,
    completeness_rate := round2 rate }

/-- `DataQualityMonitor.check_completeness`: per-table completeness; returns
`none` for an unknown table (the source returns an error dict there). -/
def check_completeness (t : String) (s : Store) : Option CompletenessReport :=
  match t with
  | "drugs" =>
    some (mkCompletenessReport t s.drugs.length (s.drugs.filter drugCompleteRow).length)
  | "sales" =>
    some (mkCompletenessReport t s.sales.length (s.sales.filter saleCompleteRow).length)
  | "patients" =>
    some (mkCompletenessReport t s.patients.length (s.patients.filter patientCompleteRow).length)
  | _ => none

/-- Modelled from the spec sentence for the completeness claim: the claimed
required fields for a sale are transaction id, drug reference, sale date and
quantity. Only the sales predicate differs from the source. -/
def saleCompleteRowClaimed (x : SaleRow) : Bool :=
  x.transaction_id.isSome && x.drug_id.isSome && x.sale_date.isSome &&
    x.quantity.isSome

/-- The completeness check as the claim states it (sales require `quantity`);
used only to compare against the source behaviour. -/
def check_completeness_claimed (t : String) (s : Store) : Option CompletenessReport :=
  match t with
  | "drugs" =>
    some (mkCompletenessReport t s.drugs.length (s.drugs.filter drugCompleteRow).length)
  | "sales" =>
    some (mkCompletenessReport t s.sales.length (s.sales.filter saleCompleteRowClaimed).length)
  | "patients" =>
    some (mkCompletenessReport t s.patients.length (s.patients.filter patientCompleteRow).length)
  | _ => none

/-! ## DataQualityMonitor.check_consistency / accuracy / timeliness -/

/-- A value of the Python consistency dict: four int counters plus the
string timestamp. -/
inductive PyVal where
  | int (n : Int)
  | str (s : String)
deriving DecidableEq, Repr

/-- A sale referencing no existing drug (`~Sale.drug_id.in_(select Drug.id)`;
NULL drug_id is not selected). -/
def orphanSale (s : Store) (x : SaleRow) : Bool :=
  match x.drug_id with
  | some did => !(s.drugs.any (fun d => d.id = did))
  | none => false

/-- `Drug.stock_quantity < 0` (NULL not selected). -/
def negStockDrug (d : DrugRow) : Bool :=
  match d.stock_quantity with
  | some v => decide (v < 0)
  | none => false

/-- `Sale.sale_date > date.today()` (NULL not selected). -/
def futureSale (today : Int) (x : SaleRow) : Bool :=
  match x.sale_date with
  | some dt => decide (today < dt)
  | none => false

/-- `Drug.expiry_date < today AND Drug.stock_quantity > 0`. -/
def expiredInStock (today : Int) (d : DrugRow) : Bool :=
  match d.expiry_date, d.stock_quantity with
  | some e, some q => decide (e < today) && decide (0 < q)
  | _, _ => false

/-- `DataQualityMonitor.check_consistency`: the returned dict, in insertion
order, including the string-valued `timestamp` entry. -/
def check_consistency (today : Int) (ts : String) (s : Store) : List (String × PyVal) :=
  [("orphaned_sales", PyVal.int ((s.sales.filter (orphanSale s)).length : Int)),
   ("negative_stock", PyVal.int ((s.drugs.filter negStockDrug).length : Int)),
   ("future_sales", PyVal.int ((s.sales.filter (futureSale today)).length : Int)),
   ("expired_drugs_in_stock", PyVal.int ((s.drugs.filter (expiredInStock today)).length : Int)),
   ("timestamp", PyVal.str ts)]

/-- Python `sum` over a list of dict values: adding a string to the running
int total raises `TypeError`. -/
def pySumAux : Int → List PyVal → Except String Int
  | acc, [] => Except.ok acc
  | acc, PyVal.int n :: t => pySumAux (acc + n) t
  | _, PyVal.str _ :: _ =>
      Except.error ("TypeError: unsupported operand types for +: int and str")

/-- Python `sum(values)`. -/
def pySum (l : List PyVal) : Except String Int := pySumAux 0 l

/-- `Drug.unit_price <= 0`. -/
def invalidPriceDrug (d : DrugRow) : Bool :=
  match d.unit_price with
  | some p => decide (p ≤ 0)
  | none => false

/-- `Sale.quantity <= 0`. -/
def invalidQtySale (x : SaleRow) : Bool :=
  match x.quantity with
  | some q => decide (q ≤ 0)
  | none => false

/-- `(Patient.age < 0) | (Patient.age > 120)`. -/
def invalidAgePatient (p : PatientRow) : Bool :=
  match p.age with
  | some a => decide (a < 0) || decide (120 < a)
  | none => false

/-- `Sale.discount > Sale.unit_price * Sale.quantity`. -/
def invalidDiscountSale (x : SaleRow) : Bool :=
  match x.discount, x.unit_price, x.quantity with
  | some disc, some up, some q => decide (up * (q : ℚ) < disc)
  | _, _, _ => false

/-- `DataQualityMonitor.check_accuracy`: number of triggered business rules
(`total_issues`, one issue entry per rule with at least one violation). -/
def check_accuracy (s : Store) : Nat :=
  (if (s.drugs.filter invalidPriceDrug).length ≠ 0 then 1 else 0) +
  (if (s.sales.filter invalidQtySale).length ≠ 0 then 1 else 0) +
  (if (s.patients.filter invalidAgePatient).length ≠ 0 then 1 else 0) +
  (if (s.sales.filter invalidDiscountSale).length ≠ 0 then 1 else 0)

/-- `DataQualityMonitor.check_timeliness`: days since the most recent sale
(`None` when no sale has a date). -/
def check_timeliness (today : Int) (s : Store) : Option Int :=
  match (s.sales.filterMap (fun x => x.sale_date)).max? with
  | some m => some (today - m)
  | none => none

/-- The aggregate score block of the quality report. -/
structure QualityScore where
  completeness : ℚ
  consistency : ℚ
  accuracy : ℚ
  timeliness : ℚ
  overall : ℚ
deriving DecidableEq, Repr

/-- `DataQualityMonitor.run_comprehensive_quality_check`: runs the four
audits and aggregates the weighted score.  Faithful to the source, it sums
`consistency_issues.values()` with Python `sum`, and that dict contains the
string `timestamp` entry. -/
def run_comprehensive_quality_check (today : Int) (ts : String) (s : Store) :
    Except String QualityScore := do
  let c1 := ((check_completeness ("drugs") s).map
    (fun r => r.completeness_rate)).getD 0
  let c2 := ((check_completeness ("sales") s).map
    (fun r => r.completeness_rate)).getD 0
  let c3 := ((check_completeness ("patients") s).map
    (fun r => r.completeness_rate)).getD 0
  let avgCompleteness := (c1 + c2 + c3) / 3
  let consistencyDict := check_consistency today ts s
  let totalConsistency ← pySum (consistencyDict.map (fun p => p.2))
  let consistencyScore : ℚ :=
    if 0 < totalConsistency then max 0 (100 - (totalConsistency : ℚ) * 10) else 100
  let accuracyIssues := check_accuracy s
  let accuracyScore : ℚ :=
    if 0 < accuracyIssues then max 0 (100 - (accuracyIssues : ℚ) * 5) else 100
  let timelinessScore : ℚ :=
    match check_timeliness today s with
    | some d => if 7 < d then max 0 (100 - ((d : ℚ) - 7) * 5) else 100
    | none => 100
  let overall := avgCompleteness * (4/10) + consistencyScore * (3/10) +
    accuracyScore * (2/10) + timelinessScore * (1/10)
  pure { completeness := round2 avgCompleteness, consistency := consistencyScore,
         accuracy := accuracyScore, timeliness := timelinessScore,
         overall := round2 overall }

/-! ## DataQualityMonitor.fix_data_issues -/

/-- An old/new value in a fix record. -/
inductive FixVal where
  | int (n : Int)
  | str (s : String)
  | date (d : Int)
deriving DecidableEq, Repr

/-- A Fix Record, as appended to `fixes_applied`. -/
structure FixRecord where
  table : String
  rowId : Nat
  field : String
  old_value : FixVal
  new_value : FixVal
  fix_type : String
deriving DecidableEq, Repr

/-- The return value of `fix_data_issues`. -/
structure FixReport where
  fixes_applied : Nat
  details : List FixRecord
deriving DecidableEq, Repr

/-- Fix record for a negative-stock drug (first loop of `fix_data_issues`). -/
def negFixOf (d : DrugRow) : FixRecord :=
  { table := "drugs", rowId := d.id, field := "stock_quantity",
    old_value := FixVal.int (d.stock_quantity.getD 0),
    new_value := FixVal.int 0, fix_type := "Negative to zero" }

/-- `drug.stock_quantity = 0` assignment of the first loop. -/
def clampDrug (d : DrugRow) : DrugRow :=
  if negStockDrug d then { d with stock_quantity := some 0 } else d

/-- Fix record for a deleted orphaned sale (second loop). -/
def orphanFixOf (x : SaleRow) : FixRecord :=
  { table := "sales", rowId := x.id, field := "all",
    old_value := FixVal.str ("Exists"), new_value := FixVal.str ("Deleted"),
    fix_type := "Remove orphaned record" }

/-- Fix record for a future-dated sale (third loop; the source logs the two
dates in ISO form, modelled as date values). -/
def futureFixOf (today : Int) (x : SaleRow) : FixRecord :=
  { table := "sales", rowId := x.id, field := "sale_date",
    old_value := FixVal.date (x.sale_date.getD 0),
    new_value := FixVal.date today, fix_type := "Future date correction" }

/-- `sale.sale_date = date.today()` assignment of the third loop. -/
def resetSale (today : Int) (x : SaleRow) : SaleRow :=
  if futureSale today x then { x with sale_date := some today } else x

/-- All fix records of one `fix_data_issues` invocation, in the order the
source appends them.  The future-dated scan runs after the orphan deletions
have been flushed from the session, hence over the filtered sales. -/
def storeFixList (today : Int) (s : Store) : List FixRecord :=
  (s.drugs.filter negStockDrug).map negFixOf ++
  (s.sales.filter (orphanSale s)).map orphanFixOf ++
  ((s.sales.filter (fun x => !orphanSale s x)).filter (futureSale today)).map
    (futureFixOf today)

/-- The canonical store after all three fix loops have been committed. -/
def fixedStore (today : Int) (s : Store) : Store :=
  { s with drugs := s.drugs.map clampDrug,
           sales := (s.sales.filter (fun x => !orphanSale s x)).map
             (resetSale today) }

/-- `DataQualityMonitor.fix_data_issues`.  The in-memory session changes
become visible in the canonical store only through the single
`db.session.commit()` at the end (skipped when no fix was collected);
`commitOk` models whether that commit succeeds.  A failing commit
propagates as an exception (the source has no try/except here), so the
caller gets an error and the canonical store keeps its pre-call contents. -/
def fix_data_issues (today : Int) (s : Store) (commitOk : Bool) :
    Except String (Store × FixReport) :=
  let fixes := storeFixList today s
  if fixes = [] then
    Except.ok (s, { fixes_applied := 0, details := [] })
  else if commitOk then
    Except.ok (fixedStore today s,
               { fixes_applied := fixes.length, details := fixes })
  else
    Except.error ("commit failed")

/-! ## Tabular record sets (pandas DataFrames) -/

/-- A scalar cell value of a tabular record set.  Floats are rationals,
datetimes are abstract integer day numbers, and `null` stands for
NaN/NaT/None alike. -/
inductive Val where
  | str (s : String)
  | int (n : Int)
  | rat (q : ℚ)
  | date (d : Int)
  | null
deriving DecidableEq, Repr

/-- A tabular record set: named columns and positional rows.  Cells beyond
a row's length read as `null`. -/
structure DF where
  cols : List String
  rows : List (List Val)
deriving DecidableEq, Repr

/-- Index of the first occurrence of a column name (length when absent). -/
def colIdx : List String → String → Nat
  | [], _ => 0
  | c0 :: rest, c => if c0 = c then 0 else colIdx rest c + 1

/-- Read a cell of a row by column name (null when out of range or when
the column is absent). -/
def cell (cols : List String) (r : List Val) (c : String) : Val :=
  r.getD (colIdx cols c) Val.null

/-- Pad a row with nulls up to the column count before writing into it. -/
def padTo (n : Nat) (r : List Val) : List Val :=
  r ++ List.replicate (n - r.length) Val.null

/-- Column list after a pandas column assignment: existing columns keep
their position, a new column is appended. -/
def setColCols (cols : List String) (c : String) : List String :=
  if c ∈ cols then cols else cols ++ [c]

/-- Row after a pandas column assignment `df[c] = f(df)`. -/
def setColRow (cols : List String) (c : String)
    (f : List String → List Val → Val) (r : List Val) : List Val :=
  if c ∈ cols then (padTo cols.length r).set (colIdx cols c) (f cols r)
  else padTo cols.length r ++ [f cols r]

/-- Pandas column assignment `df[c] = f(df)` where `f` reads the row. -/
def setCol (df : DF) (c : String) (f : List String → List Val → Val) : DF :=
  { cols := setColCols df.cols c, rows := df.rows.map (setColRow df.cols c f) }

/-- Pandas column transformation `df[c] = g(df[c])` (no-op when the column
is absent, matching the guarded uses in the source). -/
def mapCol (df : DF) (c : String) (g : Val → Val) : DF :=
  if c ∈ df.cols then setCol df c (fun cols r => g (cell cols r c)) else df

/-- Positional column rename through an alias table; unknown columns pass
through unchanged. -/
def renameCols (m : List (String × String)) (df : DF) : DF :=
  { cols := df.cols.map (fun c =>
      ((m.find? (fun p => p.1 == c)).map (fun p => p.2)).getD c),
    rows := df.rows }

/-- Whether a cell is NaN/NaT/None. -/
def isNullVal : Val → Bool
  | Val.null => true
  | _ => false

/-- `df.dropna(subset=...)`: drops rows with a null in any subset column;
raises `KeyError` when a subset column is absent. -/
def dropna (df : DF) (subset : List String) : Except String DF :=
  if ∀ c ∈ subset, c ∈ df.cols then
    Except.ok
      { cols := df.cols,
        rows := df.rows.filter (fun r =>
          subset.all (fun c => !isNullVal (cell df.cols r c))) }
  else Except.error ("KeyError")

/-- A numeric cell strictly greater than zero (NaN compares false). -/
def valPos : Val → Bool
  | Val.int n => decide (0 < n)
  | Val.rat q => decide (0 < q)
  | _ => false

/-- `df[df[c] > 0]`: keeps rows whose cell in `c` is a positive number;
raises `KeyError` when the column is absent. -/
def filterPos (df : DF) (c : String) : Except String DF :=
  if c ∈ df.cols then
    Except.ok
      { cols := df.cols,
        rows := df.rows.filter (fun r => valPos (cell df.cols r c)) }
  else Except.error ("KeyError")

/-- Decimal digit value of a character, if any. -/
def digitVal (c : Char) : Option Nat :=
  if 48 ≤ c.toNat ∧ c.toNat ≤ 57 then some (c.toNat - 48) else none

/-- Parse a nonempty all-digit character list as a natural number. -/
def natOfChars (l : List Char) : Option Nat :=
  if l = [] then none
  else l.foldl (fun acc c =>
    match acc, digitVal c with
    | some a, some d => some (a * 10 + d)
    | _, _ => none) (some 0)

/-- Parse an optional minus sign followed by digits as an integer. -/
def intOfChars : List Char → Option Int
  | [] => none
  | c :: t =>
    if c = Char.ofNat 45 then (natOfChars t).map (fun n => -(n : Int))
    else (natOfChars (c :: t)).map (fun n => (n : Int))

/-- Split a character list on a separator character. -/
def splitOnChar (sep : Char) : List Char → List (List Char)
  | [] => [[]]
  | c :: t =>
    if c = sep then [] :: splitOnChar sep t
    else
      match splitOnChar sep t with
      | [] => [[c]]
      | h :: r => (c :: h) :: r

/-- Parse a decimal string (optional sign, optional fractional part), as
`pd.to_numeric` accepts; anything else is unparseable. -/
def parseNumStr (s : String) : Val :=
  match intOfChars s.data with
  | some n => Val.int n
  | none =>
    let p : Bool × List Char :=
      match s.data with
      | c :: t => if c = Char.ofNat 45 then (true, t) else (false, c :: t)
      | [] => (false, [])
    match splitOnChar (Char.ofNat 46) p.2 with
    | [a, b] =>
      match natOfChars a, natOfChars b with
      | some na, some nb =>
        let q : ℚ := (na : ℚ) + (nb : ℚ) / ((10 : ℚ) ^ b.length)
        Val.rat (if p.1 then -q else q)
      | _, _ => Val.null
    | _ => Val.null

/-- `pd.to_numeric(x, errors='coerce')` on one cell: numbers pass through,
numeric strings parse, everything else becomes NaN. -/
def toNumericCoerce : Val → Val
  | Val.int n => Val.int n
  | Val.rat q => Val.rat q
  | Val.str s => parseNumStr s
  | _ => Val.null

/-- Parse an ISO `YYYY-MM-DD` string to an abstract day number; anything
else is unparseable. -/
def parseDateStr (s : String) : Val :=
  match splitOnChar (Char.ofNat 45) s.data with
  | [y, m, d] =>
    match natOfChars y, natOfChars m, natOfChars d with
    | some ny, some nm, some nd =>
      if 1 ≤ nm ∧ nm ≤ 12 ∧ 1 ≤ nd ∧ nd ≤ 31 then
        Val.date ((ny * 372 + (nm - 1) * 31 + (nd - 1) : Nat) : Int)
      else Val.null
    | _, _, _ => Val.null
  | _ => Val.null

/-- `pd.to_datetime(x, errors='coerce')` on one cell: dates pass through,
date strings parse, everything else becomes NaT. -/
def toDatetimeCoerce : Val → Val
  | Val.date d => Val.date d
  | Val.str s => parseDateStr s
  | _ => Val.null

/-- Elementwise product of two numeric cells; NaN propagates. -/
def valMul : Val → Val → Val
  | Val.int a, Val.int b => Val.int (a * b)
  | Val.int a, Val.rat b => Val.rat ((a : ℚ) * b)
  | Val.rat a, Val.int b => Val.rat (a * (b : ℚ))
  | Val.rat a, Val.rat b => Val.rat (a * b)
  | _, _ => Val.null

/-- The stock-quantity pipeline of `transform_drugs`:
`pd.to_numeric(..., errors='coerce').fillna(0).astype(int)`. -/
def stockCoerce (v : Val) : Val :=
  match toNumericCoerce v with
  | Val.null => Val.int 0
  | Val.int n => Val.int n
  | Val.rat q => Val.int (qtrunc q)
  | w => w

/-- `(expiry_date - Timestamp.today()).dt.days` on one cell. -/
def daysFromToday (today : Int) : Val → Val
  | Val.date d => Val.int (d - today)
  | _ => Val.null

/-- Truncated `days / 365.25` in integer arithmetic
(`trunc(d / 365.25) = sign(d) * (4|d| / 1461)`). -/
def ageOfDays (days : Int) : Int :=
  if days < 0 then -(((4 * days.natAbs) / 1461 : Nat) : Int)
  else (((4 * days.natAbs) / 1461 : Nat) : Int)

/-- `((today - dob).dt.days / 365.25).astype(int)` on one cell: defined on
dates, and `none` on NaT — where `astype(int)` raises `ValueError`. -/
def ageVal (today : Int) : Val → Option Val
  | Val.date dd => some (Val.int (ageOfDays (today - dd)))
  | _ => none

/-- `.dt.year` on one cell (abstract calendar decoding). -/
def dtYear : Val → Val
  | Val.date d => Val.int (d / 372)
  | _ => Val.null

/-- `.dt.month` on one cell (abstract calendar decoding). -/
def dtMonth : Val → Val
  | Val.date d => Val.int ((d % 372) / 31 + 1)
  | _ => Val.null

/-- `.dt.day` on one cell (abstract calendar decoding). -/
def dtDay : Val → Val
  | Val.date d => Val.int ((d % 372) % 31 + 1)
  | _ => Val.null

/-- Weekday names for `.dt.day_name()`. -/
def weekNames : List String :=
  ["Monday", "Tuesday", "Wednesday", "Thursday", "Friday", "Saturday", "Sunday"]

/-- `.dt.day_name()` on one cell (abstract calendar decoding). -/
def dtDayName : Val → Val
  | Val.date d => Val.str (weekNames.getD (d % 7).toNat ("Monday"))
  | _ => Val.null

/-- The email mask of `transform_patients`: keep a string containing `@`,
null everything else (`.str.contains('@', na=False)` then `loc` update). -/
def emailFix : Val → Val
  | Val.str s =>
    if s.data.any (fun c => c = Char.ofNat 64) then Val.str s else Val.null
  | _ => Val.null

/-- The fixed gender alias table of `transform_patients`. -/
def genderMap : List (String × String) :=
  [("M", "Male"), ("MALE", "Male"), ("F", "Female"), ("FEMALE", "Female"),
   ("O", "Other"), ("OTHER", "Other")]

/-- ASCII uppercase of one character. -/
def charUpper (c : Char) : Char :=
  if 97 ≤ c.toNat ∧ c.toNat ≤ 122 then Char.ofNat (c.toNat - 32) else c

/-- ASCII `.upper()` of a string. -/
def strUpper (s : String) : String := String.mk (s.data.map charUpper)

/-- `.str.upper().map({...})` on one gender cell; unmapped values and
non-strings become null. -/
def genderFix : Val → Val
  | Val.str s =>
    match genderMap.find? (fun p => p.1 == strUpper s) with
    | some p => Val.str p.2
    | none => Val.null
  | _ => Val.null

/-- The drugs column alias table of `transform_drugs`. -/
def drugColMap : List (String × String) :=
  [("DrugCode", "drug_code"), ("DrugName", "drug_name"),
   ("GenericName", "generic_name"), ("Manufacturer", "manufacturer"),
   ("Category", "category"), ("UnitPrice", "unit_price"),
   ("Stock", "stock_quantity"), ("ExpiryDate", "expiry_date"),
   ("Drug_ID", "drug_code"), ("Product_Name", "drug_name"),
   ("MFR", "manufacturer")]

/-- The sales column alias table of `transform_sales`. -/
def salesColMap : List (String × String) :=
  [("TransactionID", "transaction_id"), ("SaleDate", "sale_date"),
   ("DrugID", "drug_id"), ("Quantity", "quantity"), ("Price", "unit_price"),
   ("Total", "total_amount"), ("Pharmacy", "pharmacy_name"),
   ("PaymentMethod", "payment_method")]

/-- The patients column alias table of `transform_patients`. -/
def patientColMap : List (String × String) :=
  [("PatientID", "patient_code"), ("FirstName", "first_name"),
   ("LastName", "last_name"), ("DOB", "date_of_birth"),
   ("Gender", "gender"), ("Email", "email"), ("Phone", "phone"),
   ("Condition", "primary_condition"), ("Insurance", "insurance_id")]

/-- `PharmaDataPipeline.transform_drugs`: rename, coerce, drop rows with a
null drug code or name, inject defaults, derive stock value and days to
expiry.  Accessing a missing `unit_price`/`stock_quantity` column for the
stock-value product raises `KeyError`, as does a `dropna` on missing
columns. -/
def drugsPrep (df : DF) : DF :=
  let d1 := renameCols drugColMap df
  let d2 := if "unit_price" ∈ d1.cols then
      mapCol d1 ("unit_price") toNumericCoerce else d1
  let d3 := if "stock_quantity" ∈ d2.cols then
      mapCol d2 ("stock_quantity") stockCoerce else d2
  if "expiry_date" ∈ d3.cols then
      mapCol d3 ("expiry_date") toDatetimeCoerce else d3

def transform_drugs (today : Int) (df : DF) : Except String DF := do
  let d5 ← dropna (drugsPrep df) ["drug_code", "drug_name"]
  let d6 := if "category" ∈ d5.cols then d5 else
      setCol d5 ("category") (fun _ _ => Val.str ("Prescription"))
  let d7 := if "min_stock_level" ∈ d6.cols then d6 else
      setCol d6 ("min_stock_level") (fun _ _ => Val.int 10)
  let d8 := if "max_stock_level" ∈ d7.cols then d7 else
      setCol d7 ("max_stock_level") (fun _ _ => Val.int 1000)
  if "unit_price" ∈ d8.cols ∧ "stock_quantity" ∈ d8.cols then
    let d9 := setCol d8 ("stock_value") (fun cols r =>
      valMul (cell cols r ("unit_price")) (cell cols r ("stock_quantity")))
    let d10 := if "expiry_date" ∈ d9.cols then
        setCol d9 ("days_to_expiry") (fun cols r =>
          daysFromToday today (cell cols r ("expiry_date")))
      else d9
    pure d10
  else Except.error ("KeyError")

/-- The numeric columns coerced by `transform_sales`, in source order. -/
def salesNumericCols : List String :=
  ["quantity", "unit_price", "total_amount", "discount", "tax_amount"]

/-- The calendar-part derivations of `transform_sales`. -/
def salesCalendarCols (d : DF) : DF :=
  setCol (setCol (setCol (setCol d ("year") (fun cols r =>
      dtYear (cell cols r ("sale_date"))))
    ("month") (fun cols r => dtMonth (cell cols r ("sale_date"))))
    ("day") (fun cols r => dtDay (cell cols r ("sale_date"))))
    ("day_of_week") (fun cols r => dtDayName (cell cols r ("sale_date")))

/-- The conditional `total_amount` backfill of `transform_sales`. -/
def salesBackfill (d : DF) : DF :=
  if "total_amount" ∉ d.cols ∧ "unit_price" ∈ d.cols ∧ "quantity" ∈ d.cols then
    setCol d ("total_amount") (fun cols r =>
      valMul (cell cols r ("unit_price")) (cell cols r ("quantity")))
  else d

/-- `PharmaDataPipeline.transform_sales`: rename, coerce, backfill the
total, derive the calendar parts, then drop rows with null id/drug/date and
non-positive quantity.  Accessing a missing `sale_date` or `quantity`
column raises `KeyError`. -/
def salesPrep (df : DF) : DF :=
  let d1 := renameCols salesColMap df
  let d2 := if "sale_date" ∈ d1.cols then
      mapCol d1 ("sale_date") toDatetimeCoerce else d1
  salesNumericCols.foldl (fun acc c =>
      if c ∈ acc.cols then mapCol acc c toNumericCoerce else acc) d2

def transform_sales (_today : Int) (df : DF) : Except String DF := do
  let d4 := salesBackfill (salesPrep df)
  if "sale_date" ∈ d4.cols then
    let d5 := salesCalendarCols d4
    let d6 ← dropna d5 ["transaction_id", "drug_id", "sale_date"]
    filterPos d6 ("quantity")
  else Except.error ("KeyError")

/-- `transform_sales` reordered as the spec describes row filtering: rows
missing a required field are dropped (and the quantity filter applied)
before the derived fields are computed.  Used to compare orderings. -/
def transform_sales_dropFirst (_today : Int) (df : DF) : Except String DF := do
  let e4 ← dropna (salesPrep df) ["transaction_id", "drug_id", "sale_date"]
  let e5 ← filterPos e4 ("quantity")
  pure (salesCalendarCols (salesBackfill e5))

/-- Synthesised patient codes (the source draws random UUID fragments; the
embedding uses the row position, which the claims never inspect). -/
def synthCodes (n : Nat) : Nat → List (List Val) → List (List Val)
  | _, [] => []
  | i, r :: t => (padTo n r ++ [Val.str ("PAT-" ++ toString i)]) ::
      synthCodes n (i + 1) t

/-- The age assignment of `transform_patients`: `astype(int)` raises
`ValueError` as soon as any date of birth is NaT, because the age for that
row is NaN. -/
def patientsAgeAssign (today : Int) (da : DF) : Except String DF :=
  if da.rows.all (fun r =>
      (ageVal today (cell da.cols r ("date_of_birth"))).isSome) then
    Except.ok (setCol da ("age") (fun cols r =>
      (ageVal today (cell cols r ("date_of_birth"))).getD Val.null))
  else Except.error ("ValueError: cannot convert non-finite values to integer")

/-- The age/dob stage of `transform_patients`: coerce `date_of_birth`, then
assign the age column. -/
def patientsAgeStage (today : Int) (d1 : DF) : Except String DF :=
  if "date_of_birth" ∈ d1.cols then
    patientsAgeAssign today (mapCol d1 ("date_of_birth") toDatetimeCoerce)
  else Except.ok d1

/-- The patient-code synthesis tail of `transform_patients`. -/
def patientsCodeStage (d : DF) : DF :=
  if "patient_code" ∈ d.cols then d
  else { cols := d.cols ++ ["patient_code"],
         rows := synthCodes d.cols.length 0 d.rows }

/-- `PharmaDataPipeline.transform_patients`: rename, derive age from date
of birth, null invalid emails, normalise gender, then drop rows missing
first/last name or date of birth and synthesise missing patient codes. -/
def patientsEGStage (d2 : DF) : DF :=
  let d3 := if "email" ∈ d2.cols then mapCol d2 ("email") emailFix else d2
  if "gender" ∈ d3.cols then mapCol d3 ("gender") genderFix else d3

def transform_patients (today : Int) (df : DF) : Except String DF := do
  let d2 ← patientsAgeStage today (renameCols patientColMap df)
  let d5 ← dropna (patientsEGStage d2) ["first_name", "last_name", "date_of_birth"]
  pure (patientsCodeStage d5)

/-- `transform_patients` reordered as the spec describes row filtering:
rows missing a required field are dropped before any derived field (age,
email, gender, code) is computed.  Used to compare orderings. -/
def transform_patients_dropFirst (today : Int) (df : DF) : Except String DF := do
  let d1 := renameCols patientColMap df
  let d2 := if "date_of_birth" ∈ d1.cols then
      mapCol d1 ("date_of_birth") toDatetimeCoerce else d1
  let d3 ← dropna d2 ["first_name", "last_name", "date_of_birth"]
  let d4 ← if "date_of_birth" ∈ d3.cols then patientsAgeAssign today d3
           else Except.ok d3
  pure (patientsCodeStage (patientsEGStage d4))

/-! ## Validator (`validate_data_quality`) -/

/-- One entry of a validation report's issue list. -/
structure VIssue where
  field : String
  issue : String
  severity : String
deriving DecidableEq, Repr

/-- The validation report (`validation_report` dict of the source). -/
structure ValidationReport where
  data_type : String
  total_records : Nat
  valid_records : Int
  invalid_records : Nat
  quality_score : ℚ
  issues : List VIssue
deriving DecidableEq, Repr

/-- Required / numeric / date field lists per entity type. -/
def vFieldLists : String → List String × List String × List String
  | "drugs" =>
    (["drug_code", "drug_name", "manufacturer", "unit_price"],
     ["unit_price", "stock_quantity"], ["expiry_date"])
  | "sales" =>
    (["transaction_id", "drug_id", "sale_date", "quantity"],
     ["quantity", "unit_price", "total_amount"], ["sale_date"])
  | "patients" =>
    (["first_name", "last_name", "date_of_birth"], ["age"], ["date_of_birth"])
  | _ => ([], [], [])

/-- `df[field].isna().sum()`. -/
def nullCount (df : DF) (c : String) : Nat :=
  (df.rows.filter (fun r => isNullVal (cell df.cols r c))).length

/-- `(~pd.to_numeric(df[field], errors='coerce').notna()).sum()`. -/
def nonNumericCount (df : DF) (c : String) : Nat :=
  (df.rows.filter (fun r => isNullVal (toNumericCoerce (cell df.cols r c)))).length

/-- `PharmaDataPipeline.validate_data_quality`: builds the issue list from
the three field checks (each restricted to columns present), counts issues,
and scores `(total - issues) / total * 100` rounded to two decimals, or 0
for an empty set.  Always returns a report, never raises. -/
def validate_data_quality (df : DF) (data_type : String) : ValidationReport :=
  let fl := vFieldLists data_type
  let reqIssues := (fl.1.filter (fun c => decide (c ∈ df.cols))).filterMap (fun f =>
    let n := nullCount df f
    if 0 < n then
      some { field := f, issue := "Missing values: " ++ toString n,
             severity := "High" }
    else none)
  let numIssues := (fl.2.1.filter (fun c => decide (c ∈ df.cols))).filterMap (fun f =>
    let n := nonNumericCount df f
    if 0 < n then
      some { field := f, issue := "Non-numeric values: " ++ toString n,
             severity := "Medium" }
    else none)
  let dateIssues := (fl.2.2.filter (fun c => decide (c ∈ df.cols))).filterMap (fun f =>
    let n := nullCount df f
    if 0 < n then
      some { field := f, issue := "Invalid dates: " ++ toString n,
             severity := "Medium" }
    else none)
  let issues := reqIssues ++ numIssues ++ dateIssues
  let total := df.rows.length
  let valid : Int := (total : Int) - (issues.length : Int)
  let score : ℚ :=
    if 0 < total then round2 (((valid : ℚ) / (total : ℚ)) * 100) else 0
  { data_type := data_type, total_records := total, valid_records := valid,
    invalid_records := issues.length, quality_score := score, issues := issues }

/-! ## Loader (`load_to_database`) -/

/-- One `to_sql(..., if_exists=mode)` chunk write against the table. -/
def writeChunk (mode : String) (table chunk : List (List Val)) : List (List Val) :=
  if mode = "append" then table ++ chunk else chunk

/-- `ceil(n / C)`: the number of chunks the load loop iterates over. -/
def numChunks (n C : Nat) : Nat := (n + C - 1) / C

/-- The chunk loop of `load_to_database` over the chunk indices: stops with
failure at the first failing write (an unknown `if_exists` mode also makes
`to_sql` raise), leaving earlier chunks in place; returns the success flag,
the table contents and the number of chunks written. -/
def chunkFold (mode : String) (failAt : Nat → Bool) (C : Nat)
    (rows : List (List Val)) :
    List Nat → List (List Val) × Nat → Bool × List (List Val) × Nat
  | [], st => (true, st.1, st.2)
  | i :: rest, st =>
    if ¬(mode = "append" ∨ mode = "replace") then (false, st.1, st.2)
    else if failAt i then (false, st.1, st.2)
    else chunkFold mode failAt C rows rest
      (writeChunk mode st.1 ((rows.drop (i * C)).take C), st.2 + 1)

/-- `PharmaDataPipeline.load_to_database`: first `df.head(0).to_sql(...,
if_exists='replace')` replaces the target table with an empty one (the
prior contents are discarded unconditionally), then the rows are written in
chunks of `C`; any failing chunk write is caught and reported as `false`
with no rollback of earlier chunks.  A zero chunk size makes Python
`range` raise, which the handler also turns into `false`. -/
def load_to_database (_prior : List (List Val)) (df : DF) (C : Nat)
    (mode : String) (failAt : Nat → Bool) : Bool × List (List Val) × Nat :=
  if C = 0 then (false, [], 0)
  else chunkFold mode failAt C df.rows
    (List.range (numChunks df.rows.length C)) ([], 0)

/-! ## Concrete record sets and stores used by witnesses and counterexamples -/

/-- Patients input with an unparseable date of birth (C3). -/
def exDFC3 : DF :=
  { cols := ["FirstName", "LastName", "DOB"],
    rows := [[Val.str ("Ann"), Val.str ("Lee"), Val.str ("notadate")]] }

/-- Patients input with an unparseable date of birth (C4). -/
def exDFC4 : DF :=
  { cols := ["FirstName", "LastName", "DOB"],
    rows := [[Val.str ("Bo"), Val.str ("Ek"), Val.str ("oops")]] }

/-- Drugs input whose only row has a null manufacturer (C1). -/
def exDFC1bad : DF :=
  { cols := ["DrugCode", "DrugName", "Manufacturer", "UnitPrice", "Stock"],
    rows := [[Val.str ("D1"), Val.str ("N1"), Val.null, Val.str ("5"),
              Val.str ("2")]] }

/-- The transform output for `exDFC1bad`. -/
def exDFC1badOut : DF :=
  { cols := ["drug_code", "drug_name", "manufacturer", "unit_price",
             "stock_quantity", "category", "min_stock_level",
             "max_stock_level", "stock_value"],
    rows := [[Val.str ("D1"), Val.str ("N1"), Val.null, Val.int 5,
              Val.int 2, Val.str ("Prescription"), Val.int 10, Val.int 1000,
              Val.int 10]] }

/-- Drugs input for the C1 witness: one complete row, one with null code. -/
def exDFdrugsW : DF :=
  { cols := ["DrugCode", "DrugName", "UnitPrice", "Stock"],
    rows := [[Val.str ("D1"), Val.str ("N1"), Val.str ("2"), Val.str ("3")],
             [Val.null, Val.str ("N2"), Val.str ("1"), Val.str ("1")]] }

/-- The transform output for `exDFdrugsW`. -/
def exDFdrugsWOut : DF :=
  { cols := ["drug_code", "drug_name", "unit_price", "stock_quantity",
             "category", "min_stock_level", "max_stock_level", "stock_value"],
    rows := [[Val.str ("D1"), Val.str ("N1"), Val.int 2, Val.int 3,
              Val.str ("Prescription"), Val.int 10, Val.int 1000, Val.int 6]] }

/-- Sales input for the C1 witness: a good row, a bad-date row, a
zero-quantity row. -/
def exDFsalesW : DF :=
  { cols := ["TransactionID", "DrugID", "SaleDate", "Quantity", "Price"],
    rows := [[Val.str ("T1"), Val.int 7, Val.str ("2020-01-02"),
              Val.str ("2"), Val.str ("4")],
             [Val.str ("T2"), Val.int 8, Val.str ("bad"), Val.str ("2"),
              Val.str ("4")],
             [Val.str ("T3"), Val.int 9, Val.str ("2020-01-03"),
              Val.str ("0"), Val.str ("4")]] }

/-- The transform output for `exDFsalesW`. -/
def exDFsalesWOut : DF :=
  { cols := ["transaction_id", "drug_id", "sale_date", "quantity",
             "unit_price", "total_amount", "year", "month", "day",
             "day_of_week"],
    rows := [[Val.str ("T1"), Val.int 7, Val.date 751441, Val.int 2,
              Val.int 4, Val.int 8, Val.int 2020, Val.int 1, Val.int 2,
              Val.str ("Saturday")]] }

/-- Patients input for the C1 witness: a good row and a null-name row. -/
def exDFpatW : DF :=
  { cols := ["PatientID", "FirstName", "LastName", "DOB", "Gender", "Email"],
    rows := [[Val.str ("P1"), Val.str ("Ann"), Val.str ("Lee"),
              Val.str ("2000-01-02"), Val.str ("f"), Val.str ("a-b")],
             [Val.str ("P2"), Val.null, Val.str ("Po"),
              Val.str ("2000-01-03"), Val.str ("x"), Val.str ("a@b")]] }

/-- The transform output for `exDFpatW`. -/
def exDFpatWOut : DF :=
  { cols := ["patient_code", "first_name", "last_name", "date_of_birth",
             "gender", "email", "age"],
    rows := [[Val.str ("P1"), Val.str ("Ann"), Val.str ("Lee"),
              Val.date 744001, Val.str ("Female"), Val.null, Val.int 153]] }

/-- Empty record set for the C5 witness. -/
def exDFemptyC5 : DF := { cols := ["drug_code"], rows := [] }

/-- Issue-free sales record set for the C5 witness. -/
def exDFcleanC5 : DF :=
  { cols := ["transaction_id", "drug_id", "sale_date", "quantity"],
    rows := [[Val.str ("T1"), Val.int 1, Val.date 10, Val.int 2]] }

/-- Record set for the C7 witness. -/
def exDFloadC7 : DF :=
  { cols := ["a"],
    rows := [[Val.int 1], [Val.int 2], [Val.int 3], [Val.int 4], [Val.int 5]] }

/-- Record set for the C10 witness. -/
def exDFloadC10 : DF := { cols := ["a"], rows := [[Val.int 5]] }

/-! ## Sequences of column assignments, for the drop-order comparison -/

/-- A sequence of column assignments applied to a record set. -/
def setCols (d : DF) (ops : List (String × (List String → List Val → Val))) : DF :=
  ops.foldl (fun acc op => setCol acc op.1 op.2) d

/-- The column list after a sequence of column assignments. -/
def colsAfter (cols : List String) :
    List (String × (List String → List Val → Val)) → List String
  | [] => cols
  | op :: rest => colsAfter (setColCols cols op.1) rest

/-- The row transformation performed by a sequence of column assignments. -/
def applyOps (cols : List String)
    (ops : List (String × (List String → List Val → Val))) (r : List Val) :
    List Val :=
  match ops with
  | [] => r
  | op :: rest => applyOps (setColCols cols op.1) rest (setColRow cols op.1 op.2 r)

/-- The derived-field stage of `transform_sales` (total backfill plus
calendar parts) as an assignment sequence over the pre-stage columns. -/
def salesOps (cols : List String) :
    List (String × (List String → List Val → Val)) :=
  (if "total_amount" ∉ cols ∧ "unit_price" ∈ cols ∧ "quantity" ∈ cols then
    [("total_amount", fun cols r =>
      valMul (cell cols r ("unit_price")) (cell cols r ("quantity")))]
  else []) ++
  [("year", fun cols r => dtYear (cell cols r ("sale_date"))),
   ("month", fun cols r => dtMonth (cell cols r ("sale_date"))),
   ("day", fun cols r => dtDay (cell cols r ("sale_date"))),
   ("day_of_week", fun cols r => dtDayName (cell cols r ("sale_date")))]

/-! ## Concrete canonical stores used by witnesses and counterexamples -/

/-- Store used to exhibit the completeness field mismatch for sales. -/
def exStoreC8 : Store :=
  { drugs := [], patients := [],
    sales := [{ id := 1, transaction_id := some "T1", drug_id := some 1,
                sale_date := some 100, quantity := none, unit_price := none,
                discount := none, total_amount := some 5 }] }

/-- Store with one negative-stock drug for the C9 witness. -/
def exDrugC9 : DrugRow :=
  { id := 1, drug_code := some "D1", drug_name := some "N1",
    manufacturer := none, unit_price := none, stock_quantity := some (-5),
    expiry_date := none }

/-- Canonical store for the C9 witness. -/
def exStoreC9 : Store := { drugs := [exDrugC9], sales := [], patients := [] }

/-- The store after the C9 fix run. -/
def exFixedC9 : Store :=
  { drugs := [{ exDrugC9 with stock_quantity := some 0 }], sales := [],
    patients := [] }

/-- The fix report of the C9 fix run. -/
def exReportC9 : FixReport :=
  { fixes_applied := 1,
    details := [{ table := "drugs", rowId := 1, field := "stock_quantity",
                  old_value := FixVal.int (-5), new_value := FixVal.int 0,
                  fix_type := "Negative to zero" }] }

/-- Store with one pending fix for the C6 counterexample. -/
def exStoreC6 : Store :=
  { drugs := [{ id := 1, drug_code := some "D1", drug_name := some "N1",
                manufacturer := none, unit_price := none,
                stock_quantity := some (-3), expiry_date := none }],
    sales := [], patients := [] }

/-- Store with one pending fix for the C6 witness. -/
def exStoreC6b : Store :=
  { drugs := [{ id := 2, drug_code := some "D2", drug_name := some "N2",
                manufacturer := none, unit_price := none,
                stock_quantity := some (-7), expiry_date := none }],
    sales := [], patients := [] }

/-- Decidable equality on `Except`, for evaluating concrete runs. -/
instance exceptDecEq {ε α : Type} [DecidableEq ε] [DecidableEq α] :
    DecidableEq (Except ε α) := fun x y =>
  match x, y with
  | Except.ok a, Except.ok b =>
    match decEq a b with
    | isTrue h => isTrue (by rw [h])
    | isFalse h => isFalse (by intro hh; injection hh; contradiction)
  | Except.ok _, Except.error _ => isFalse (by intro hh; exact Except.noConfusion hh)
  | Except.error _, Except.ok _ => isFalse (by intro hh; exact Except.noConfusion hh)
  | Except.error a, Except.error b =>
    match decEq a b with
    | isTrue h => isTrue (by rw [h])
    | isFalse h => isFalse (by intro hh; injection hh; contradiction)

/-! ## Theorems about the Data Quality Monitor -/

/-- C2: the source of `run_comprehensive_quality_check` sums
`consistency_issues.values()`, and that dict always contains the string
`timestamp` entry, so every invocation raises `TypeError` before any
overall score is produced — the claimed weighted score is never returned. -/
theorem run_comprehensive_quality_check_raises (today : Int) (ts : String)
    (s : Store) :
    run_comprehensive_quality_check today ts s =
      Except.error ("TypeError: unsupported operand types for +: int and str") := by
  simp [run_comprehensive_quality_check, check_consistency, pySum, pySumAux,
    bind, Except.bind]

/-- C8 counterexample: a sale with NULL `quantity` but non-NULL
`total_amount` is counted complete by the source (`check_completeness`
filters on `total_amount`), while the claimed required-field set
(including `quantity`) would give completeness 0. -/
theorem check_completeness_sales_field_mismatch :
    ((check_completeness ("sales") exStoreC8).map
      (fun r => r.completeness_rate)) = some 100 ∧
    ((check_completeness_claimed ("sales") exStoreC8).map
      (fun r => r.completeness_rate)) = some 0 := by
  constructor <;>
    · simp only [check_completeness, check_completeness_claimed, exStoreC8,
        mkCompletenessReport, saleCompleteRow, saleCompleteRowClaimed,
        List.filter, Option.isSome, Option.map_some', Option.some.injEq]
      norm_num [round2, roundHalfEven, qfloor]

/-- The rate stored in a completeness report, with the zero-total case
folded into one conditional. -/
theorem completeness_rate_formula_aux (t : String) (total complete : Nat) :
    (mkCompletenessReport t total complete).completeness_rate =
      if total = 0 then 0 else round2 ((complete : ℚ) / (total : ℚ) * 100) := by
  unfold mkCompletenessReport
  rcases Nat.eq_zero_or_pos total with h | h
  · subst h
    norm_num [round2, roundHalfEven, qfloor]
  · rw [if_pos h, if_neg (by omega)]

/-- C8 (amended): per-table completeness is the percentage of rows whose
required fields are all non-null over the total row count (0 for an empty
table), with required fields drug code/name/manufacturer/unit price for
drugs, transaction id/drug reference/sale date/total amount for sales,
and first name/last name/date of birth for patients. -/
theorem check_completeness_rate_formula (s : Store) :
    ((check_completeness ("drugs") s).map (fun r => r.completeness_rate)) =
      some (if s.drugs.length = 0 then 0 else
        round2 ((s.drugs.countP drugCompleteRow : ℚ) / (s.drugs.length : ℚ) * 100)) ∧
    ((check_completeness ("sales") s).map (fun r => r.completeness_rate)) =
      some (if s.sales.length = 0 then 0 else
        round2 ((s.sales.countP saleCompleteRow : ℚ) / (s.sales.length : ℚ) * 100)) ∧
    ((check_completeness ("patients") s).map (fun r => r.completeness_rate)) =
      some (if s.patients.length = 0 then 0 else
        round2 ((s.patients.countP patientCompleteRow : ℚ) / (s.patients.length : ℚ) * 100)) := by
  refine ⟨?_, ?_, ?_⟩ <;>
    simp only [check_completeness, Option.map_some', Option.some.injEq,
      List.countP_eq_length_filter, completeness_rate_formula_aux]

/-- C9: `fix_data_issues` clamps every negative-stock drug to stock 0 and
records a Fix Record whose old value is the prior negative stock and whose
new value is 0. -/
theorem fix_data_issues_clamps_negative_stock (today : Int) (s : Store)
    (d : DrugRow) (v : Int) (hd : d ∈ s.drugs) (hv : d.stock_quantity = some v)
    (hneg : v < 0) :
    ∃ st r, fix_data_issues today s true = Except.ok (st, r) ∧
      { d with stock_quantity := some 0 } ∈ st.drugs ∧
      ({ table := "drugs", rowId := d.id, field := "stock_quantity",
         old_value := FixVal.int v, new_value := FixVal.int 0,
         fix_type := "Negative to zero" } : FixRecord) ∈ r.details := by
  have hnsd : negStockDrug d = true := by simp [negStockDrug, hv, hneg]
  have hmf : d ∈ s.drugs.filter negStockDrug := List.mem_filter.mpr ⟨hd, hnsd⟩
  have hrecmem : negFixOf d ∈ storeFixList today s := by
    unfold storeFixList
    exact List.mem_append_left _ (List.mem_append_left _
      (List.mem_map_of_mem _ hmf))
  have hne : storeFixList today s ≠ [] := List.ne_nil_of_mem hrecmem
  refine ⟨fixedStore today s,
    { fixes_applied := (storeFixList today s).length,
      details := storeFixList today s }, ?_, ?_, ?_⟩
  · unfold fix_data_issues
    rw [if_neg hne]
    rfl
  · exact List.mem_map.mpr ⟨d, hd, by simp [clampDrug, hnsd]⟩
  · have heq : negFixOf d =
        ({ table := "drugs", rowId := d.id, field := "stock_quantity",
           old_value := FixVal.int v, new_value := FixVal.int 0,
           fix_type := "Negative to zero" } : FixRecord) := by
      simp [negFixOf, hv]
    exact heq ▸ hrecmem

/-- C9 witness: the drug with stock −5 ends at stock 0 and the fix record
carries old value −5, new value 0. -/
theorem fix_data_issues_clamps_negative_stock_witness :
    ({ exDrugC9 with stock_quantity := some 0 } ∈ exFixedC9.drugs) ∧
    ({ table := "drugs", rowId := 1, field := "stock_quantity",
       old_value := FixVal.int (-5), new_value := FixVal.int 0,
       fix_type := "Negative to zero" } : FixRecord) ∈ exReportC9.details := by
  obtain ⟨st, r, heq, h1, h2⟩ :=
    fix_data_issues_clamps_negative_stock 0 exStoreC9 exDrugC9 (-5)
      (by decide) rfl (by decide)
  have h3 : fix_data_issues 0 exStoreC9 true =
      Except.ok (exFixedC9, exReportC9) := by decide
  rw [h3] at heq
  injection heq with hp
  injection hp with h4 h5
  subst h4
  subst h5
  exact ⟨h1, h2⟩

/-- C6 (amended): `fix_data_issues` behaves as one unit of work — a
successful call returns a count equal to the recorded fix list and either
left the store untouched (no fixes pending) or applied the whole fix set;
the call returns the commit-failure error exactly when the commit is made
to fail while fixes are pending (the exception propagates, so the caller
sees an error rather than a bool, and the store keeps its old contents). -/
theorem fix_data_issues_unit_of_work (today : Int) (s : Store) (c : Bool) :
    (∀ st r, fix_data_issues today s c = Except.ok (st, r) →
        r.fixes_applied = r.details.length ∧
        (r.details = [] → st = s) ∧
        (r.details ≠ [] → st = fixedStore today s ∧
          r.details = storeFixList today s)) ∧
    (fix_data_issues today s c = Except.error ("commit failed") ↔
        (c = false ∧ storeFixList today s ≠ [])) := by
  unfold fix_data_issues
  by_cases hf : storeFixList today s = []
  · rw [if_pos hf]
    refine ⟨?_, ?_, ?_⟩
    · intro st r h
      simp only [Except.ok.injEq, Prod.mk.injEq] at h
      obtain ⟨h1, h2⟩ := h
      subst h1
      subst h2
      exact ⟨rfl, fun _ => rfl, fun hne => absurd rfl hne⟩
    · intro h
      exact Except.noConfusion h
    · rintro ⟨_, hne⟩
      exact absurd hf hne
  · rw [if_neg hf]
    cases c
    · rw [if_neg (by simp)]
      refine ⟨?_, ?_, ?_⟩
      · intro st r h
        exact Except.noConfusion h
      · intro _
        exact ⟨rfl, hf⟩
      · intro _
        rfl
    · rw [if_pos rfl]
      refine ⟨?_, ?_, ?_⟩
      · intro st r h
        simp only [Except.ok.injEq, Prod.mk.injEq] at h
        obtain ⟨h1, h2⟩ := h
        subst h1
        subst h2
        exact ⟨rfl, fun hd => absurd hd hf, fun _ => ⟨rfl, rfl⟩⟩
      · intro h
        exact Except.noConfusion h
      · rintro ⟨hc, _⟩
        exact Bool.noConfusion hc

/-- C6 counterexample: with a fix pending and the commit made to fail, the
call ends in an exception — it does not surface a bool failure with zero
fixes applied as the claim states. -/
theorem fix_data_issues_commit_failure_raises :
    fix_data_issues 0 exStoreC6 false = Except.error ("commit failed") := by
  decide

/-- C6 witness: the unit-of-work theorem applied at a concrete store with a
pending fix and a failing commit. -/
theorem fix_data_issues_unit_of_work_witness :
    fix_data_issues 0 exStoreC6b false = Except.error ("commit failed") :=
  (fix_data_issues_unit_of_work 0 exStoreC6b false).2.mpr ⟨rfl, by decide⟩

/-! ## Cell-level lemmas about the record-set operations -/

theorem getD_replicate_null (n i : Nat) :
    (List.replicate n Val.null).getD i Val.null = Val.null := by
  induction n generalizing i with
  | zero => simp
  | succ m ih => cases i <;> simp [List.replicate_succ, ih]

theorem getD_append_replicate_null (r : List Val) (n i : Nat) :
    (r ++ List.replicate n Val.null).getD i Val.null = r.getD i Val.null := by
  by_cases h : i < r.length
  · rw [List.getD_append _ _ _ _ h]
  · rw [List.getD_append_right _ _ _ _ (Nat.le_of_not_lt h),
      getD_replicate_null, List.getD_eq_default _ _ (Nat.le_of_not_lt h)]

theorem cell_padTo (cols : List String) (n : Nat) (r : List Val) (c : String) :
    cell cols (padTo n r) c = cell cols r c := by
  unfold cell padTo
  exact getD_append_replicate_null r _ _

theorem padTo_length (n : Nat) (r : List Val) :
    (padTo n r).length = max r.length n := by
  simp [padTo]
  omega

theorem getD_set_ne (l : List Val) (i j : Nat) (v : Val) (h : j ≠ i) :
    (l.set j v).getD i Val.null = l.getD i Val.null := by
  induction l generalizing i j with
  | nil => simp
  | cons a t ih =>
    cases j with
    | zero =>
      cases i with
      | zero => exact absurd rfl h
      | succ i2 => simp [List.set]
    | succ j2 =>
      cases i with
      | zero => simp [List.set]
      | succ i2 =>
        simp only [List.set, List.getD_cons_succ]
        exact ih _ _ (by omega)

theorem colIdx_lt_length (cols : List String) (c : String) (h : c ∈ cols) :
    colIdx cols c < cols.length := by
  induction cols with
  | nil => simp at h
  | cons c0 rest ih =>
    unfold colIdx
    split
    · simp
    · rename_i hne
      have hm : c ∈ rest := by
        rcases List.mem_cons.mp h with h1 | h1
        · exact absurd h1.symm hne
        · exact h1
      simp only [List.length_cons]
      exact Nat.succ_lt_succ (ih hm)

theorem colIdx_append_left (cols l2 : List String) (c : String) (h : c ∈ cols) :
    colIdx (cols ++ l2) c = colIdx cols c := by
  induction cols with
  | nil => simp at h
  | cons c0 rest ih =>
    simp only [List.cons_append]
    unfold colIdx
    split
    · rfl
    · rename_i hne
      have hm : c ∈ rest := by
        rcases List.mem_cons.mp h with h1 | h1
        · exact absurd h1.symm hne
        · exact h1
      rw [ih hm]

theorem colIdx_ne_of_ne (cols : List String) (c1 c2 : String) (h1 : c1 ∈ cols)
    (hne : c1 ≠ c2) : colIdx cols c1 ≠ colIdx cols c2 := by
  induction cols with
  | nil => simp at h1
  | cons c0 rest ih =>
    unfold colIdx
    by_cases e1 : c0 = c1
    · rw [if_pos e1, if_neg (fun hh => hne (e1 ▸ hh))]
      exact (Nat.succ_ne_zero _).symm
    · rw [if_neg e1]
      have hm : c1 ∈ rest := by
        rcases List.mem_cons.mp h1 with h | h
        · exact absurd h.symm e1
        · exact h
      by_cases e2 : c0 = c2
      · rw [if_pos e2]
        exact Nat.succ_ne_zero _
      · rw [if_neg e2]
        exact fun hh => ih hm (by omega)

theorem mem_setColCols_of_mem (cols : List String) (c c1 : String)
    (h : c1 ∈ cols) : c1 ∈ setColCols cols c := by
  unfold setColCols
  split
  · exact h
  · exact List.mem_append_left _ h

theorem mem_setColCols_iff (cols : List String) (c c1 : String) (hne : c1 ≠ c) :
    c1 ∈ setColCols cols c ↔ c1 ∈ cols := by
  unfold setColCols
  split
  · exact Iff.rfl
  · simp [List.mem_append, hne]

/-- Writing column `c` does not change what is read from a different,
already-present column `c1`. -/
theorem cell_setColRow_ne (cols : List String) (c c1 : String)
    (f : List String → List Val → Val) (r : List Val)
    (h1 : c1 ∈ cols) (hne : c1 ≠ c) :
    cell (setColCols cols c) (setColRow cols c f r) c1 = cell cols r c1 := by
  unfold setColCols setColRow
  by_cases hc : c ∈ cols
  · rw [if_pos hc, if_pos hc]
    unfold cell
    rw [getD_set_ne _ _ _ _ (colIdx_ne_of_ne cols c1 c h1 hne).symm]
    exact getD_append_replicate_null r _ _
  · rw [if_neg hc, if_neg hc]
    unfold cell
    rw [colIdx_append_left cols _ c1 h1]
    have hlt : colIdx cols c1 < (padTo cols.length r).length := by
      rw [padTo_length]
      exact lt_of_lt_of_le (colIdx_lt_length cols c1 h1) (le_max_right _ _)
    rw [List.getD_append _ _ _ _ hlt]
    exact getD_append_replicate_null r _ _

theorem setCol_cols_def (df : DF) (c : String) (f) :
    (setCol df c f).cols = setColCols df.cols c := rfl

theorem setCol_rows_def (df : DF) (c : String) (f) :
    (setCol df c f).rows = df.rows.map (setColRow df.cols c f) := rfl

/-- A per-row property of an untouched column survives a column write. -/
theorem setCol_cell_invariant (df : DF) (c : String) (f) (c1 : String)
    (P : Val → Prop) (h1 : c1 ∈ df.cols) (hne : c1 ≠ c)
    (hall : ∀ r ∈ df.rows, P (cell df.cols r c1)) :
    c1 ∈ (setCol df c f).cols ∧
      ∀ r ∈ (setCol df c f).rows, P (cell (setCol df c f).cols r c1) := by
  refine ⟨mem_setColCols_of_mem _ _ _ h1, ?_⟩
  intro r hr
  obtain ⟨r0, hr0, rfl⟩ := List.mem_map.mp hr
  rw [setCol_cols_def, cell_setColRow_ne _ _ _ _ _ h1 hne]
  exact hall r0 hr0

theorem ite_keep_setCol_invariant (cond : Prop) [Decidable cond] (d : DF)
    (c : String) (f) (c1 : String) (P : Val → Prop) (h1 : c1 ∈ d.cols)
    (hne : c1 ≠ c) (hall : ∀ r ∈ d.rows, P (cell d.cols r c1)) :
    c1 ∈ (if cond then d else setCol d c f).cols ∧
      ∀ r ∈ (if cond then d else setCol d c f).rows,
        P (cell (if cond then d else setCol d c f).cols r c1) := by
  split
  · exact ⟨h1, hall⟩
  · exact setCol_cell_invariant d c f c1 P h1 hne hall

theorem ite_setCol_keep_invariant (cond : Prop) [Decidable cond] (d : DF)
    (c : String) (f) (c1 : String) (P : Val → Prop) (h1 : c1 ∈ d.cols)
    (hne : c1 ≠ c) (hall : ∀ r ∈ d.rows, P (cell d.cols r c1)) :
    c1 ∈ (if cond then setCol d c f else d).cols ∧
      ∀ r ∈ (if cond then setCol d c f else d).rows,
        P (cell (if cond then setCol d c f else d).cols r c1) := by
  split
  · exact setCol_cell_invariant d c f c1 P h1 hne hall
  · exact ⟨h1, hall⟩

/-- Inversion of a successful `dropna`. -/
theorem dropna_sound (df : DF) (subset : List String) (out : DF)
    (h : dropna df subset = Except.ok out) :
    out.cols = df.cols ∧ (∀ c ∈ subset, c ∈ df.cols) ∧
      ∀ r ∈ out.rows, ∀ c ∈ subset, isNullVal (cell out.cols r c) = false := by
  unfold dropna at h
  split at h
  · rename_i hmem
    injection h with h2
    subst h2
    refine ⟨rfl, hmem, ?_⟩
    intro r hr c hc
    have hp := (List.mem_filter.mp hr).2
    have := (List.all_eq_true.mp hp) c hc
    simpa using this
  · exact Except.noConfusion h

/-- Inversion of a successful `filterPos`. -/
theorem filterPos_sound (df : DF) (c : String) (out : DF)
    (h : filterPos df c = Except.ok out) :
    out.cols = df.cols ∧
      ∀ r ∈ out.rows, r ∈ df.rows ∧ valPos (cell df.cols r c) = true := by
  unfold filterPos at h
  split at h
  · injection h with h2
    subst h2
    refine ⟨rfl, ?_⟩
    intro r hr
    exact ⟨(List.mem_filter.mp hr).1, (List.mem_filter.mp hr).2⟩
  · exact Except.noConfusion h

/-- Inversion of a successful monadic bind on `Except`. -/
theorem except_bind_ok {α β : Type} (e : Except String α)
    (k : α → Except String β) (b : β) (h : (e >>= k) = Except.ok b) :
    ∃ a, e = Except.ok a ∧ k a = Except.ok b := by
  cases e with
  | error msg => simp [Bind.bind, Except.bind] at h
  | ok a =>
    refine ⟨a, rfl, ?_⟩
    simpa [Bind.bind, Except.bind] using h

/-- Reading an untouched column is unaffected by the patient-code
synthesis. -/
theorem synthCodes_cell (cols : List String) (c1 : String) (h1 : c1 ∈ cols) :
    ∀ (rows : List (List Val)) (i : Nat) (r : List Val),
      r ∈ synthCodes cols.length i rows →
      ∃ r0 ∈ rows, cell (cols ++ ["patient_code"]) r c1 = cell cols r0 c1 := by
  intro rows
  induction rows with
  | nil =>
    intro i r hr
    simp [synthCodes] at hr
  | cons r0 t ih =>
    intro i r hr
    simp only [synthCodes, List.mem_cons] at hr
    rcases hr with rfl | hr
    · refine ⟨r0, by simp, ?_⟩
      unfold cell
      rw [colIdx_append_left cols _ c1 h1]
      have hlt : colIdx cols c1 < (padTo cols.length r0).length := by
        rw [padTo_length]
        exact lt_of_lt_of_le (colIdx_lt_length cols c1 h1) (le_max_right _ _)
      rw [List.getD_append _ _ _ _ hlt]
      exact getD_append_replicate_null r0 _ _
    · obtain ⟨r1, hr1, he⟩ := ih (i + 1) r hr
      exact ⟨r1, List.mem_cons_of_mem _ hr1, he⟩

/-! ## Theorems about the transforms -/

/-- C1 counterexample: a drug row with a null manufacturer — a required
field per the claim — survives `transform_drugs`, whose dropna subset is
only drug code and drug name. -/
theorem transform_drugs_keeps_null_manufacturer :
    transform_drugs 0 exDFC1bad = Except.ok exDFC1badOut ∧
    cell exDFC1badOut.cols (exDFC1badOut.rows.getD 0 []) ("manufacturer") =
      Val.null := by
  constructor
  · decide
  · decide

/-- C1 (amended): on the success path, `transform_drugs` output rows always
have a non-null drug code and drug name — but rows with a null manufacturer
or unit price survive; `transform_sales` output rows always have a non-null
transaction id, drug reference and sale date, and a positive (hence
non-null) quantity; `transform_patients` output rows always have a
non-null first name, last name and date of birth. -/
theorem transform_required_fields_amended (t : Int) (df : DF) :
    (∀ out, transform_drugs t df = Except.ok out → ∀ r ∈ out.rows,
        isNullVal (cell out.cols r ("drug_code")) = false ∧
        isNullVal (cell out.cols r ("drug_name")) = false) ∧
    (∀ out, transform_sales t df = Except.ok out → ∀ r ∈ out.rows,
        isNullVal (cell out.cols r ("transaction_id")) = false ∧
        isNullVal (cell out.cols r ("drug_id")) = false ∧
        isNullVal (cell out.cols r ("sale_date")) = false ∧
        valPos (cell out.cols r ("quantity")) = true) ∧
    (∀ out, transform_patients t df = Except.ok out → ∀ r ∈ out.rows,
        isNullVal (cell out.cols r ("first_name")) = false ∧
        isNullVal (cell out.cols r ("last_name")) = false ∧
        isNullVal (cell out.cols r ("date_of_birth")) = false) := by
  refine ⟨?_, ?_, ?_⟩
  · -- transform_drugs
    intro out h
    simp only [transform_drugs] at h
    obtain ⟨d5, hd5, h2⟩ := except_bind_ok _ _ _ h
    obtain ⟨hc5, hm5, hr5⟩ := dropna_sound _ _ _ hd5
    set d6 := if "category" ∈ d5.cols then d5
      else setCol d5 ("category") (fun _ _ => Val.str ("Prescription")) with hd6
    set d7 := if "min_stock_level" ∈ d6.cols then d6
      else setCol d6 ("min_stock_level") (fun _ _ => Val.int 10) with hd7
    set d8 := if "max_stock_level" ∈ d7.cols then d7
      else setCol d7 ("max_stock_level") (fun _ _ => Val.int 1000) with hd8
    set d9 := setCol d8 ("stock_value") (fun cols r =>
      valMul (cell cols r ("unit_price")) (cell cols r ("stock_quantity"))) with hd9
    set d10 := if "expiry_date" ∈ d9.cols then
        setCol d9 ("days_to_expiry") (fun cols r =>
          daysFromToday t (cell cols r ("expiry_date")))
      else d9 with hd10
    split at h2
    · have hout : d10 = out := by
        simpa [pure, Except.pure] using h2
      subst hout
      have A5 : ("drug_code" : String) ∈ d5.cols := by
        rw [hc5]
        exact hm5 _ (by simp)
      have B5 : ("drug_name" : String) ∈ d5.cols := by
        rw [hc5]
        exact hm5 _ (by simp)
      have RA5 : ∀ r ∈ d5.rows, isNullVal (cell d5.cols r ("drug_code")) = false :=
        fun r hr => hr5 r hr _ (by simp)
      have RB5 : ∀ r ∈ d5.rows, isNullVal (cell d5.cols r ("drug_name")) = false :=
        fun r hr => hr5 r hr _ (by simp)
      have SA6 : ("drug_code" : String) ∈ d6.cols ∧
          ∀ r ∈ d6.rows, isNullVal (cell d6.cols r ("drug_code")) = false := by
        rw [hd6]
        exact ite_keep_setCol_invariant _ _ _ _ _
          (fun v => isNullVal v = false) A5 (by decide) RA5
      have SB6 : ("drug_name" : String) ∈ d6.cols ∧
          ∀ r ∈ d6.rows, isNullVal (cell d6.cols r ("drug_name")) = false := by
        rw [hd6]
        exact ite_keep_setCol_invariant _ _ _ _ _
          (fun v => isNullVal v = false) B5 (by decide) RB5
      have SA7 : ("drug_code" : String) ∈ d7.cols ∧
          ∀ r ∈ d7.rows, isNullVal (cell d7.cols r ("drug_code")) = false := by
        rw [hd7]
        exact ite_keep_setCol_invariant _ _ _ _ _
          (fun v => isNullVal v = false) SA6.1 (by decide) SA6.2
      have SB7 : ("drug_name" : String) ∈ d7.cols ∧
          ∀ r ∈ d7.rows, isNullVal (cell d7.cols r ("drug_name")) = false := by
        rw [hd7]
        exact ite_keep_setCol_invariant _ _ _ _ _
          (fun v => isNullVal v = false) SB6.1 (by decide) SB6.2
      have SA8 : ("drug_code" : String) ∈ d8.cols ∧
          ∀ r ∈ d8.rows, isNullVal (cell d8.cols r ("drug_code")) = false := by
        rw [hd8]
        exact ite_keep_setCol_invariant _ _ _ _ _
          (fun v => isNullVal v = false) SA7.1 (by decide) SA7.2
      have SB8 : ("drug_name" : String) ∈ d8.cols ∧
          ∀ r ∈ d8.rows, isNullVal (cell d8.cols r ("drug_name")) = false := by
        rw [hd8]
        exact ite_keep_setCol_invariant _ _ _ _ _
          (fun v => isNullVal v = false) SB7.1 (by decide) SB7.2
      have SA9 : ("drug_code" : String) ∈ d9.cols ∧
          ∀ r ∈ d9.rows, isNullVal (cell d9.cols r ("drug_code")) = false := by
        rw [hd9]
        exact setCol_cell_invariant _ _ _ _
          (fun v => isNullVal v = false) SA8.1 (by decide) SA8.2
      have SB9 : ("drug_name" : String) ∈ d9.cols ∧
          ∀ r ∈ d9.rows, isNullVal (cell d9.cols r ("drug_name")) = false := by
        rw [hd9]
        exact setCol_cell_invariant _ _ _ _
          (fun v => isNullVal v = false) SB8.1 (by decide) SB8.2
      have SA10 : ("drug_code" : String) ∈ d10.cols ∧
          ∀ r ∈ d10.rows, isNullVal (cell d10.cols r ("drug_code")) = false := by
        rw [hd10]
        exact ite_setCol_keep_invariant _ _ _ _ _
          (fun v => isNullVal v = false) SA9.1 (by decide) SA9.2
      have SB10 : ("drug_name" : String) ∈ d10.cols ∧
          ∀ r ∈ d10.rows, isNullVal (cell d10.cols r ("drug_name")) = false := by
        rw [hd10]
        exact ite_setCol_keep_invariant _ _ _ _ _
          (fun v => isNullVal v = false) SB9.1 (by decide) SB9.2
      intro r hr
      exact ⟨SA10.2 r hr, SB10.2 r hr⟩
    · exact Except.noConfusion h2
  · -- transform_sales
    intro out h
    simp only [transform_sales] at h
    split at h
    · obtain ⟨d6, hd6, h2⟩ := except_bind_ok _ _ _ h
      obtain ⟨hc6, hm6, hr6⟩ := dropna_sound _ _ _ hd6
      obtain ⟨hc7, hr7⟩ := filterPos_sound _ _ _ h2
      intro r hr
      have hmem := hr7 r hr
      rw [hc7]
      exact ⟨hr6 r hmem.1 _ (by simp), hr6 r hmem.1 _ (by simp),
        hr6 r hmem.1 _ (by simp), hmem.2⟩
    · exact Except.noConfusion h
  · -- transform_patients
    intro out h
    simp only [transform_patients] at h
    obtain ⟨d2, hage, h2⟩ := except_bind_ok _ _ _ h
    obtain ⟨d5, hd5, h3⟩ := except_bind_ok _ _ _ h2
    obtain ⟨hc5, hm5, hr5⟩ := dropna_sound _ _ _ hd5
    have hout : patientsCodeStage d5 = out := by
      simpa [pure, Except.pure] using h3
    subst hout
    have hfn5 : ("first_name" : String) ∈ d5.cols := by
      rw [hc5]
      exact hm5 _ (by simp)
    have hln5 : ("last_name" : String) ∈ d5.cols := by
      rw [hc5]
      exact hm5 _ (by simp)
    have hdb5 : ("date_of_birth" : String) ∈ d5.cols := by
      rw [hc5]
      exact hm5 _ (by simp)
    intro r hr
    unfold patientsCodeStage at hr ⊢
    by_cases hpc : ("patient_code" : String) ∈ d5.cols
    · rw [if_pos hpc] at hr ⊢
      exact ⟨hr5 r hr _ (by simp), hr5 r hr _ (by simp), hr5 r hr _ (by simp)⟩
    · rw [if_neg hpc] at hr ⊢
      simp only at hr ⊢
      obtain ⟨ra, hra, hea⟩ :=
        synthCodes_cell d5.cols ("first_name") hfn5 d5.rows 0 r hr
      obtain ⟨rb, hrb, heb⟩ :=
        synthCodes_cell d5.cols ("last_name") hln5 d5.rows 0 r hr
      obtain ⟨rc, hrc, hec⟩ :=
        synthCodes_cell d5.cols ("date_of_birth") hdb5 d5.rows 0 r hr
      rw [hea, heb, hec]
      exact ⟨hr5 ra hra _ (by simp), hr5 rb hrb _ (by simp),
        hr5 rc hrc _ (by simp)⟩

theorem setCols_spec (ops : List (String × (List String → List Val → Val))) :
    ∀ d : DF, setCols d ops =
      { cols := colsAfter d.cols ops, rows := d.rows.map (applyOps d.cols ops) } := by
  induction ops with
  | nil =>
    intro d
    cases d with
    | mk cols rows =>
      unfold setCols colsAfter
      simp only [List.foldl_nil]
      congr 1
      rw [show applyOps cols [] = id from funext fun r => rfl, List.map_id]
  | cons op rest ih =>
    intro d
    show setCols (setCol d op.1 op.2) rest = _
    rw [ih (setCol d op.1 op.2)]
    congr 1
    rw [setCol_rows_def, List.map_map]
    rfl

theorem setCols_cols (d : DF) (ops) :
    (setCols d ops).cols = colsAfter d.cols ops := by
  rw [setCols_spec]

/-- Membership in the columns after assignments that all target other
names. -/
theorem mem_colsAfter_iff (cn : String) :
    ∀ (ops) (cols : List String), (∀ op ∈ ops, cn ≠ op.1) →
      (cn ∈ colsAfter cols ops ↔ cn ∈ cols) := by
  intro ops
  induction ops with
  | nil => intro cols _; exact Iff.rfl
  | cons op rest ih =>
    intro cols h
    unfold colsAfter
    rw [ih _ (fun o ho => h o (List.mem_cons_of_mem _ ho))]
    exact mem_setColCols_iff cols op.1 cn (h op (by simp))

/-- Reading a column untouched by a sequence of assignments gives the
original cell. -/
theorem cell_applyOps (cn : String) :
    ∀ (ops) (cols : List String) (r : List Val),
      cn ∈ cols → (∀ op ∈ ops, cn ≠ op.1) →
      cell (colsAfter cols ops) (applyOps cols ops r) cn = cell cols r cn := by
  intro ops
  induction ops with
  | nil => intro cols r _ _; rfl
  | cons op rest ih =>
    intro cols r h1 h2
    unfold colsAfter applyOps
    rw [ih _ _ (mem_setColCols_of_mem _ _ _ h1)
      (fun o ho => h2 o (List.mem_cons_of_mem _ ho))]
    exact cell_setColRow_ne cols op.1 cn op.2 r h1 (h2 op (by simp))

theorem salesDerived_eq_setCols (d : DF) :
    salesCalendarCols (salesBackfill d) = setCols d (salesOps d.cols) := by
  by_cases hcond : "total_amount" ∉ d.cols ∧ "unit_price" ∈ d.cols ∧
      "quantity" ∈ d.cols
  · simp only [salesBackfill, salesOps, if_pos hcond]
    rfl
  · simp only [salesBackfill, salesOps, if_neg hcond]
    rfl

theorem salesOps_names (cols : List String) (op)
    (hop : op ∈ salesOps cols) :
    op.1 = "total_amount" ∨ op.1 = "year" ∨ op.1 = "month" ∨
      op.1 = "day" ∨ op.1 = "day_of_week" := by
  unfold salesOps at hop
  rcases List.mem_append.mp hop with h | h
  · split at h
    · simp only [List.mem_singleton] at h
      rw [h]
      exact Or.inl rfl
    · simp at h
  · simp only [List.mem_cons, List.mem_singleton] at h
    rcases h with rfl | rfl | rfl | rfl | h
    · exact Or.inr (Or.inl rfl)
    · exact Or.inr (Or.inr (Or.inl rfl))
    · exact Or.inr (Or.inr (Or.inr (Or.inl rfl)))
    · exact Or.inr (Or.inr (Or.inr (Or.inr rfl)))
    · simp at h

theorem salesOps_ne_key (cols : List String) (cn : String)
    (hcn : cn = "transaction_id" ∨ cn = "drug_id" ∨ cn = "sale_date" ∨
      cn = "quantity") :
    ∀ op ∈ salesOps cols, cn ≠ op.1 := by
  intro op hop
  rcases salesOps_names cols op hop with h | h | h | h | h <;>
    rcases hcn with hc | hc | hc | hc <;> rw [h, hc] <;> decide

theorem mem_salesBackfill_iff (d : DF) (cn : String)
    (h : cn ≠ "total_amount") :
    cn ∈ (salesBackfill d).cols ↔ cn ∈ d.cols := by
  unfold salesBackfill
  split
  · rw [setCol_cols_def]
    exact mem_setColCols_iff d.cols _ cn h
  · exact Iff.rfl

theorem list_all_congr_mem {α : Type} (l : List α) (p q : α → Bool)
    (h : ∀ x ∈ l, p x = q x) : l.all p = l.all q := by
  induction l with
  | nil => rfl
  | cons a tl ih =>
    simp only [List.all_cons, h a (by simp)]
    rw [ih (fun x hx => h x (List.mem_cons_of_mem _ hx))]

/-- Two row filters commute with a prior row-wise map that leaves the
filtered cells unchanged. -/
theorem filter_filter_map_comm (rows : List (List Val))
    (G : List Val → List Val) (pB qB pA qA : List Val → Bool)
    (hp : ∀ r, pB (G r) = pA r) (hq : ∀ r, qB (G r) = qA r) :
    ((rows.map G).filter pB).filter qB = ((rows.filter pA).filter qA).map G := by
  rw [List.filter_map, List.filter_map]
  congr 1
  have h1 : List.filter (pB ∘ G) rows = List.filter pA rows :=
    List.filter_congr (fun x _ => by simp only [Function.comp_apply, hp])
  rw [h1]
  exact List.filter_congr (fun x _ => by simp only [Function.comp_apply, hq])

set_option maxHeartbeats 1000000 in
/-- C4 (amended, sales part): computing the derived sale fields before the
row filters — as the source does — yields exactly the same result as
dropping the incomplete rows and filtering non-positive quantities first;
the late drop in `transform_sales` is output-equivalent to the drop-first
ordering the spec describes. -/
theorem transform_sales_drop_order_equiv (t : Int) (df : DF) :
    transform_sales t df = transform_sales_dropFirst t df := by
  simp only [transform_sales, transform_sales_dropFirst]
  by_cases hsd : ("sale_date" : String) ∈ (salesPrep df).cols
  · rw [if_pos (show ("sale_date" : String) ∈ (salesBackfill (salesPrep df)).cols
      from (mem_salesBackfill_iff _ _ (by decide)).mpr hsd)]
    rw [salesDerived_eq_setCols, setCols_spec]
    by_cases hsub : ∀ c ∈ (["transaction_id", "drug_id", "sale_date"] :
        List String), c ∈ (salesPrep df).cols
    · have hSkey : ∀ c ∈ (["transaction_id", "drug_id", "sale_date"] :
          List String), c = "transaction_id" ∨ c = "drug_id" ∨
          c = "sale_date" ∨ c = "quantity" := by
        intro c hc
        simp only [List.mem_cons, List.mem_singleton] at hc
        rcases hc with rfl | rfl | rfl | hc
        · exact Or.inl rfl
        · exact Or.inr (Or.inl rfl)
        · exact Or.inr (Or.inr (Or.inl rfl))
        · simp at hc
      have hsubops : ∀ c ∈ (["transaction_id", "drug_id", "sale_date"] :
          List String),
          c ∈ colsAfter (salesPrep df).cols (salesOps (salesPrep df).cols) := by
        intro c hc
        rw [mem_colsAfter_iff c _ _ (salesOps_ne_key _ c (hSkey c hc))]
        exact hsub c hc
      unfold dropna
      rw [if_pos hsubops, if_pos hsub]
      simp only [Bind.bind, Except.bind]
      by_cases hq : ("quantity" : String) ∈ (salesPrep df).cols
      · have hq2 : ("quantity" : String) ∈
            colsAfter (salesPrep df).cols (salesOps (salesPrep df).cols) := by
          rw [mem_colsAfter_iff _ _ _
            (salesOps_ne_key _ _ (Or.inr (Or.inr (Or.inr rfl))))]
          exact hq
        unfold filterPos
        rw [if_pos hq2, if_pos hq]
        simp only [Except.bind, pure, Except.pure]
        rw [salesDerived_eq_setCols, setCols_spec]
        simp only [Except.ok.injEq, DF.mk.injEq]
        refine ⟨trivial, ?_⟩
        exact filter_filter_map_comm _ _ _ _ _ _
          (fun r => list_all_congr_mem _ _ _ (fun c hc => by
            rw [cell_applyOps c _ _ r (hsub c hc)
              (salesOps_ne_key _ c (hSkey c hc))]))
          (fun r => by
            rw [cell_applyOps _ _ _ r hq
              (salesOps_ne_key _ _ (Or.inr (Or.inr (Or.inr rfl))))])
      · have hq2 : ¬ ("quantity" : String) ∈
            colsAfter (salesPrep df).cols (salesOps (salesPrep df).cols) := by
          rw [mem_colsAfter_iff _ _ _
            (salesOps_ne_key _ _ (Or.inr (Or.inr (Or.inr rfl))))]
          exact hq
        unfold filterPos
        rw [if_neg hq2, if_neg hq]
    · have hsubops : ¬ ∀ c ∈ (["transaction_id", "drug_id", "sale_date"] :
          List String),
          c ∈ colsAfter (salesPrep df).cols (salesOps (salesPrep df).cols) := by
        intro hcon
        apply hsub
        intro c hc
        have hSkey : c = "transaction_id" ∨ c = "drug_id" ∨ c = "sale_date" ∨
            c = "quantity" := by
          simp only [List.mem_cons, List.mem_singleton] at hc
          rcases hc with rfl | rfl | rfl | hc
          · exact Or.inl rfl
          · exact Or.inr (Or.inl rfl)
          · exact Or.inr (Or.inr (Or.inl rfl))
          · simp at hc
        rw [← mem_colsAfter_iff c _ (salesPrep df).cols
          (salesOps_ne_key _ c hSkey)]
        exact hcon c hc
      unfold dropna
      rw [if_neg hsubops, if_neg hsub]
      rfl
  · rw [if_neg (show ¬ ("sale_date" : String) ∈
        (salesBackfill (salesPrep df)).cols from fun hcon =>
      hsd ((mem_salesBackfill_iff _ _ (by decide)).mp hcon))]
    have hsub : ¬ ∀ c ∈ (["transaction_id", "drug_id", "sale_date"] :
        List String), c ∈ (salesPrep df).cols :=
      fun hcon => hsd (hcon _ (by simp))
    unfold dropna
    rw [if_neg hsub]
    rfl

/-- C1 witness: the amended non-nullness facts evaluated on concrete drug,
sales and patient record sets. -/
theorem transform_required_fields_amended_witness :
    isNullVal (cell exDFdrugsWOut.cols (exDFdrugsWOut.rows.getD 0 [])
      ("drug_code")) = false ∧
    valPos (cell exDFsalesWOut.cols (exDFsalesWOut.rows.getD 0 [])
      ("quantity")) = true ∧
    isNullVal (cell exDFpatWOut.cols (exDFpatWOut.rows.getD 0 [])
      ("date_of_birth")) = false := by
  have h1 := (transform_required_fields_amended 5 exDFdrugsW).1 exDFdrugsWOut
    (by decide) (exDFdrugsWOut.rows.getD 0 []) (by decide)
  have h2 := (transform_required_fields_amended 5 exDFsalesW).2.1 exDFsalesWOut
    (by decide) (exDFsalesWOut.rows.getD 0 []) (by decide)
  have h3 := (transform_required_fields_amended 800000 exDFpatW).2.2 exDFpatWOut
    (by decide) (exDFpatWOut.rows.getD 0 []) (by decide)
  exact ⟨h1.1, h2.2.2.2, h3.2.2⟩

/-- C3: a single row-level malformed value — an unparseable date of birth —
makes `transform_patients` raise `ValueError` (the NaN age cannot be cast
by `astype(int)` in the age derivation, which runs before the dropna),
even though the input is structurally readable; the claimed behaviour
(malformed values become null or the row is dropped, never an exception)
does not hold. -/
theorem transform_patients_raises_on_bad_dob :
    transform_patients 700000 exDFC3 =
      Except.error ("ValueError: cannot convert non-finite values to integer") := by
  decide

/-- C4 counterexample: on a patients input whose only row lacks a parseable
date of birth, the source transform computes the derived age before the
required-field drop and fails, while the drop-first ordering stated by the
claim succeeds with the row removed — so rows slated for removal do have
derived fields computed on them. -/
theorem transform_patients_not_drop_first :
    transform_patients 700000 exDFC4 ≠
      transform_patients_dropFirst 700000 exDFC4 := by
  decide

/-! ## Theorems about the Validator -/

/-- C5: the Validator's quality score is `(total − issues) / total × 100`
rounded to two decimals, 0 when the input set is empty, and 100 when the
set is nonempty and no issues are detected. -/
theorem validate_data_quality_score_formula (df : DF) (dt : String) :
    ((validate_data_quality df dt).quality_score =
      if df.rows.length = 0 then 0 else
        round2 ((((df.rows.length : ℚ) -
          ((validate_data_quality df dt).issues.length : ℚ)) /
            (df.rows.length : ℚ)) * 100)) ∧
    (df.rows.length = 0 → (validate_data_quality df dt).quality_score = 0) ∧
    ((validate_data_quality df dt).issues = [] → df.rows.length ≠ 0 →
      (validate_data_quality df dt).quality_score = 100) := by
  refine ⟨?_, ?_, ?_⟩
  · simp only [validate_data_quality]
    rcases Nat.eq_zero_or_pos df.rows.length with h | h
    · simp [h]
    · rw [if_pos h, if_neg (by omega)]
      push_cast
      ring_nf
  · intro h
    simp [validate_data_quality, h]
  · intro hiss hne
    simp only [validate_data_quality] at hiss ⊢
    rw [hiss, if_pos (by omega)]
    have h100 : round2 100 = 100 := by norm_num [round2, roundHalfEven, qfloor]
    convert h100 using 2
    push_cast [List.length_nil]
    rw [sub_zero, div_self (by exact_mod_cast hne), one_mul]

/-- C5 witness: the score formula applied to an empty set and to an
issue-free set. -/
theorem validate_data_quality_score_formula_witness :
    (validate_data_quality exDFemptyC5 ("drugs")).quality_score = 0 ∧
    (validate_data_quality exDFcleanC5 ("sales")).quality_score = 100 :=
  ⟨(validate_data_quality_score_formula exDFemptyC5 ("drugs")).2.1 rfl,
   (validate_data_quality_score_formula exDFcleanC5 ("sales")).2.2
     (by decide) (by decide)⟩

/-! ## Theorems about the Loader -/

/-- Division bound: `a < (a / b + 1) * b` for positive `b`. -/
theorem lt_succ_div_mul (a b : Nat) (hb : 0 < b) : a < (a / b + 1) * b := by
  have h1 := Nat.div_add_mod a b
  have h2 := Nat.mod_lt a hb
  calc a = b * (a / b) + a % b := h1.symm
    _ < b * (a / b) + b := Nat.add_lt_add_left h2 _
    _ = (a / b + 1) * b := by ring

/-- `numChunks` on a nonempty set via truncating division. -/
theorem numChunks_eq (n C : Nat) (hC : 0 < C) (hn : 0 < n) :
    numChunks n C = (n - 1) / C + 1 := by
  unfold numChunks
  have h : n + C - 1 = (n - 1) + C := by omega
  rw [h, Nat.add_div_right _ hC]

/-- `numChunks n C` chunks cover all `n` rows. -/
theorem le_numChunks_mul (n C : Nat) (hC : 0 < C) : n ≤ numChunks n C * C := by
  rcases Nat.eq_zero_or_pos n with h | h
  · omega
  · rw [numChunks_eq n C hC h]
    exact Nat.le_of_pred_lt (lt_succ_div_mul (n - 1) C hC)

/-- `chunkFold` over a failure-free index range in append mode: all chunks
are appended and counted. -/
theorem chunkFold_append_ok (failAt : Nat → Bool) (C : Nat)
    (rows : List (List Val)) :
    ∀ m a (table : List (List Val)) (k : Nat),
      (∀ j, a ≤ j → j < a + m → failAt j = false) →
      chunkFold ("append") failAt C rows (List.range' a m) (table, k) =
        (true, table ++ (rows.drop (a * C)).take (m * C), k + m) := by
  intro m
  induction m with
  | zero => intro a table k _; simp [chunkFold]
  | succ n ih =>
    intro a table k h
    rw [List.range'_succ]
    simp only [chunkFold]
    rw [if_neg (by simp), if_neg (by simp [h a le_rfl (by omega)])]
    rw [show writeChunk ("append") table ((rows.drop (a * C)).take C) =
      table ++ (rows.drop (a * C)).take C from by simp [writeChunk]]
    rw [ih (a + 1) _ (k + 1) (fun j hj1 hj2 => h j (by omega) (by omega))]
    have hstep : (rows.drop (a * C)).take ((n + 1) * C) =
        (rows.drop (a * C)).take C ++ (rows.drop ((a + 1) * C)).take (n * C) := by
      have h1 : (n + 1) * C = C + n * C := by ring
      have h2 : (a + 1) * C = a * C + C := by ring
      rw [h1, List.take_add, List.drop_drop, h2]
    rw [hstep, List.append_assoc]
    have h3 : k + 1 + n = k + (n + 1) := by omega
    rw [h3]

/-- `chunkFold` in append mode with a first failure at index `f`: the
chunks before `f` stay persisted, the flag is false and `f` chunks were
written. -/
theorem chunkFold_append_fail (failAt : Nat → Bool) (C : Nat)
    (rows : List (List Val)) :
    ∀ m a (table : List (List Val)) (k f : Nat),
      a ≤ f → f < a + m → failAt f = true →
      (∀ j, a ≤ j → j < f → failAt j = false) →
      chunkFold ("append") failAt C rows (List.range' a m) (table, k) =
        (false, table ++ (rows.drop (a * C)).take ((f - a) * C), k + (f - a)) := by
  intro m
  induction m with
  | zero => intro a table k f h1 h2 _ _; omega
  | succ n ih =>
    intro a table k f h1 h2 hf hprev
    rw [List.range'_succ]
    simp only [chunkFold]
    rw [if_neg (by simp)]
    by_cases hfa : f = a
    · subst hfa
      rw [if_pos hf]
      simp
    · rw [if_neg (by simp [hprev a le_rfl (by omega)])]
      rw [show writeChunk ("append") table ((rows.drop (a * C)).take C) =
        table ++ (rows.drop (a * C)).take C from by simp [writeChunk]]
      rw [ih (a + 1) _ (k + 1) f (by omega) (by omega) hf
        (fun j hj1 hj2 => hprev j (by omega) hj2)]
      obtain ⟨e, he⟩ : ∃ e, f - a = e + 1 := ⟨f - a - 1, by omega⟩
      have he2 : f - (a + 1) = e := by omega
      have hstep : (rows.drop (a * C)).take ((e + 1) * C) =
          (rows.drop (a * C)).take C ++
            (rows.drop ((a + 1) * C)).take (e * C) := by
        have h3 : (e + 1) * C = C + e * C := by ring
        have h4 : (a + 1) * C = a * C + C := by ring
        rw [h3, List.take_add, List.drop_drop, h4]
      rw [he, he2, hstep, List.append_assoc]
      have h5 : k + 1 + e = k + (e + 1) := by omega
      rw [h5]

/-- C7: loading N rows with chunk size C issues exactly ceil(N/C) chunk
writes when none fails; when the write of chunk k (0-based) is the first
to fail, the call returns false (no exception), the k chunks already
written remain persisted, and the store holds exactly the first k·C rows
— a partial load with no rollback. -/
theorem load_to_database_chunked (prior : List (List Val)) (df : DF)
    (C : Nat) (failAt : Nat → Bool) (hC : 0 < C) :
    ((∀ j, j < numChunks df.rows.length C → failAt j = false) →
      load_to_database prior df C ("append") failAt =
        (true, df.rows, numChunks df.rows.length C)) ∧
    (∀ k, k < numChunks df.rows.length C → failAt k = true →
      (∀ j, j < k → failAt j = false) →
      load_to_database prior df C ("append") failAt =
        (false, df.rows.take (k * C), k)) := by
  constructor
  · intro hok
    unfold load_to_database
    rw [if_neg (by omega), List.range_eq_range']
    rw [chunkFold_append_ok failAt C df.rows (numChunks df.rows.length C) 0
      [] 0 (fun j _ hj2 => hok j (by omega))]
    simp only [Nat.zero_mul, List.drop_zero, List.nil_append, Nat.zero_add]
    rw [List.take_of_length_le (le_numChunks_mul _ _ hC)]
  · intro k hk hfk hprev
    unfold load_to_database
    rw [if_neg (by omega), List.range_eq_range']
    rw [chunkFold_append_fail failAt C df.rows (numChunks df.rows.length C)
      0 [] 0 k (by omega) (by omega) hfk (fun j _ hj2 => hprev j hj2)]
    simp only [Nat.zero_mul, List.drop_zero, List.nil_append, Nat.sub_zero,
      Nat.zero_add]

/-- C7 witness: five rows, chunk size two, forced failure on the second
chunk: one chunk persisted, failure reported. -/
theorem load_to_database_chunked_witness :
    load_to_database [[Val.int 9]] exDFloadC7 2 ("append")
      (fun j => decide (j = 1)) = (false, [[Val.int 1], [Val.int 2]], 1) := by
  have h := (load_to_database_chunked [[Val.int 9]] exDFloadC7 2
    (fun j => decide (j = 1)) (by omega)).2 1 (by decide) (by decide)
    (fun j hj => by
      have hj0 : j = 0 := by omega
      subst hj0
      decide)
  exact h.trans (by decide)

/-- Every row in the table after `chunkFold` comes from the input rows or
the starting table. -/
theorem chunkFold_mem (mode : String) (failAt : Nat → Bool) (C : Nat)
    (rows : List (List Val)) :
    ∀ (is : List Nat) (st : List (List Val) × Nat),
      (∀ r ∈ st.1, r ∈ rows) →
      ∀ r ∈ (chunkFold mode failAt C rows is st).2.1, r ∈ rows := by
  intro is
  induction is with
  | nil =>
    intro st h r hr
    simp only [chunkFold] at hr
    exact h r hr
  | cons i rest ih =>
    intro st h r hr
    simp only [chunkFold] at hr
    split at hr
    · exact h r hr
    · split at hr
      · exact h r hr
      · refine ih _ ?_ r hr
        intro x hx
        have hx' : x ∈ writeChunk mode st.1 ((rows.drop (i * C)).take C) := hx
        unfold writeChunk at hx'
        split at hx'
        · rcases List.mem_append.mp hx' with h1 | h1
          · exact h x h1
          · exact List.mem_of_mem_drop (List.mem_of_mem_take h1)
        · exact List.mem_of_mem_drop (List.mem_of_mem_take hx')

/-- C10: `load_to_database` replaces the target table with an empty one
before writing any chunk, so the result is independent of the prior table
contents and every row present afterwards comes from the input record set
— rows present before the call are never preserved, whatever the mode. -/
theorem load_to_database_replaces_target (p1 p2 : List (List Val)) (df : DF)
    (C : Nat) (mode : String) (failAt : Nat → Bool) :
    load_to_database p1 df C mode failAt =
      load_to_database p2 df C mode failAt ∧
    (∀ r, r ∈ (load_to_database p1 df C mode failAt).2.1 → r ∈ df.rows) := by
  refine ⟨rfl, ?_⟩
  intro r hr
  unfold load_to_database at hr
  split at hr
  · simp at hr
  · exact chunkFold_mem mode failAt C df.rows _ _ (by intro x hx; simp at hx)
      r hr

/-- C10 witness: the replacement theorem applied at a concrete load over a
non-empty prior table. -/
theorem load_to_database_replaces_target_witness :
    [Val.int 5] ∈ exDFloadC10.rows :=
  (load_to_database_replaces_target [[Val.int 9]] [] exDFloadC10 1
    ("append") (fun _ => false)).2 [Val.int 5] (by decide)

end Medtrack
